import Mathlib

/-!
Verification of the SE205 concurrency core: the protected buffer (monitor and
semaphore strategies, `src/TP3`), the thread pool and the executor
(`src/TP5`).  The C sources are shallowly embedded as pure state-passing
functions.  Blocking calls are evaluated in a quiescent single-thread context:
a call that would block with no other thread to wake it is modelled as `none`.
Condition-variable traffic is recorded as an event trace, since pthread
condition variables themselves are stateless; semaphores carry their counter
values in the state.
-/

set_option autoImplicit false

namespace SE205

/-- Modelled from the spec: the RingStore (`circular_buffer`) is an external
collaborator — "fixed-capacity circular storage; `put` fails when full, `get`
fails when empty; not synchronized", FIFO for a single producer/consumer.
It is modelled as a capacity plus the list of stored values, oldest first.
Stored values are `Nat` (opaque non-null handles). -/
structure CircularBuffer where
  cap : Nat
  data : List Nat
deriving Repr, DecidableEq

/-- Modelled from the spec: `circular_buffer_put` appends the value at the
tail and returns 1 when a slot is free, returns 0 leaving the store
unchanged when full. -/
def circular_buffer_put (b : CircularBuffer) (d : Nat) : CircularBuffer × Nat :=
  if b.data.length < b.cap then ({ b with data := b.data ++ [d] }, 1)
  else (b, 0)

/-- Modelled from the spec: `circular_buffer_get` removes and returns the
oldest value, or returns the NULL sentinel (`none`) when empty. -/
def circular_buffer_get (b : CircularBuffer) : CircularBuffer × Option Nat :=
  match b.data with
  | [] => (b, none)
  | d :: rest => ({ b with data := rest }, some d)

/-- The two condition variables of the monitor-strategy buffer:
`empty` = "a slot became empty" (field `b->empty`),
`full` = "a slot became full" (field `b->full`). -/
inductive CondVar where
  | empty
  | full
deriving Repr, DecidableEq

/-- Observable condition-variable traffic of one monitor-strategy call. -/
inductive CondEvent where
  | bcast (c : CondVar)
  | timedwait (c : CondVar)
deriving Repr, DecidableEq

/-- Embeds `cond_protected_buffer_get` (src/TP3/cond_protected_buffer.c).
Inside the lock it loops `while ((d = circular_buffer_get(..)) == NULL)
pthread_cond_wait(&b->full, ..)`; on an empty buffer the quiescent call
blocks forever (`none`).  On success it broadcasts `b->empty`. -/
def cond_protected_buffer_get (b : CircularBuffer) :
    Option (CircularBuffer × Nat × List CondEvent) :=
  match circular_buffer_get b with
  | (_, none) => none
  | (b1, some d) => some (b1, d, [CondEvent.bcast CondVar.empty])

/-- Embeds `cond_protected_buffer_put` (src/TP3/cond_protected_buffer.c).
The source runs `while (circular_buffer_put(b->buffer, d) == 0)
pthread_cond_wait(&b->empty, ..)`, so leaving the loop has already inserted
`d` once; it then broadcasts `b->full` and calls
`circular_buffer_put(b->buffer, d)` a second time.  On a full buffer the
quiescent call blocks forever (`none`). -/
def cond_protected_buffer_put (b : CircularBuffer) (d : Nat) :
    Option (CircularBuffer × List CondEvent) :=
  match circular_buffer_put b d with
  | (_, 0) => none
  | (b1, _) => some ((circular_buffer_put b1 d).1, [CondEvent.bcast CondVar.full])

/-- Embeds `cond_protected_buffer_remove` (src/TP3/cond_protected_buffer.c):
one `circular_buffer_get` under the lock; broadcasts `b->empty` only when a
value was obtained. -/
def cond_protected_buffer_remove (b : CircularBuffer) :
    CircularBuffer × Option Nat × List CondEvent :=
  match circular_buffer_get b with
  | (b1, none) => (b1, none, [])
  | (b1, some d) => (b1, some d, [CondEvent.bcast CondVar.empty])

/-- Embeds `cond_protected_buffer_add` (src/TP3/cond_protected_buffer.c):
one `circular_buffer_put` under the lock; broadcasts `b->full`
unconditionally (on success and on failure alike). -/
def cond_protected_buffer_add (b : CircularBuffer) (d : Nat) :
    CircularBuffer × Nat × List CondEvent :=
  let r := circular_buffer_put b d
  (r.1, r.2, [CondEvent.bcast CondVar.full])

/-- Embeds `cond_protected_buffer_poll` (src/TP3/cond_protected_buffer.c)
called with an already-past deadline.  On a non-empty buffer the first
`circular_buffer_get` succeeds and `b->empty` is broadcast (`rc != ETIMEDOUT`).
On an empty buffer the loop performs one `pthread_cond_timedwait(&b->empty, ..)`
— note the source waits on the `empty` condition — which returns `ETIMEDOUT`
at once, and the call returns NULL without broadcasting. -/
def cond_protected_buffer_poll_past (b : CircularBuffer) :
    CircularBuffer × Option Nat × List CondEvent :=
  match circular_buffer_get b with
  | (b1, none) => (b1, none, [CondEvent.timedwait CondVar.empty])
  | (b1, some d) => (b1, some d, [CondEvent.bcast CondVar.empty])

/-- Embeds `cond_protected_buffer_offer` (src/TP3/cond_protected_buffer.c)
called with an already-past deadline.  On a non-full buffer the first
`circular_buffer_put` inserts `d` and `b->empty` is broadcast
(`rc != ETIMEDOUT`; the source broadcasts the `empty` condition here).  On a
full buffer the loop performs one `pthread_cond_timedwait(&b->full, ..)` which
returns `ETIMEDOUT` at once, and the call returns 0 without broadcasting. -/
def cond_protected_buffer_offer_past (b : CircularBuffer) (d : Nat) :
    CircularBuffer × Nat × List CondEvent :=
  let r := circular_buffer_put b d
  if r.2 = 0 then (r.1, 0, [CondEvent.timedwait CondVar.full])
  else (r.1, 1, [CondEvent.bcast CondVar.empty])

/-- State of the semaphore-strategy buffer (src/TP3/sem_protected_buffer.c):
the ring store plus the three semaphore counters — `s_m` the exclusion
semaphore, `s_full` the full-slot count, `s_empty` the empty-slot count. -/
structure SemBuf where
  buffer : CircularBuffer
  s_m : Nat
  s_full : Nat
  s_empty : Nat
deriving Repr, DecidableEq

/-- Embeds `sem_protected_buffer_init`: fresh ring of the given length,
`sem_init(&s_m, 0, 1)`, `sem_init(&s_full, 0, 0)`,
`sem_init(&s_empty, 0, length)`. -/
def sem_protected_buffer_init (length : Nat) : SemBuf :=
  { buffer := { cap := length, data := [] }, s_m := 1, s_full := 0,
    s_empty := length }

/-- Embeds `sem_protected_buffer_get`: `sem_wait(s_full)`, `sem_wait(s_m)`
(either blocks in a quiescent context when its counter is 0, giving `none`),
`circular_buffer_get`, `sem_post(s_m)`, `sem_post(s_empty)`. -/
def sem_protected_buffer_get (b : SemBuf) : Option (SemBuf × Option Nat) :=
  if b.s_full = 0 then none else
  let b := { b with s_full := b.s_full - 1 }
  if b.s_m = 0 then none else
  let b := { b with s_m := b.s_m - 1 }
  let r := circular_buffer_get b.buffer
  let b := { b with buffer := r.1 }
  let b := { b with s_m := b.s_m + 1 }
  let b := { b with s_empty := b.s_empty + 1 }
  some (b, r.2)

/-- Embeds `sem_protected_buffer_put`: `sem_wait(s_empty)`, `sem_wait(s_m)`,
`circular_buffer_put`, `sem_post(s_m)`, `sem_post(s_full)`. -/
def sem_protected_buffer_put (b : SemBuf) (d : Nat) : Option SemBuf :=
  if b.s_empty = 0 then none else
  let b := { b with s_empty := b.s_empty - 1 }
  if b.s_m = 0 then none else
  let b := { b with s_m := b.s_m - 1 }
  let b := { b with buffer := (circular_buffer_put b.buffer d).1 }
  let b := { b with s_m := b.s_m + 1 }
  let b := { b with s_full := b.s_full + 1 }
  some b

/-- Embeds `sem_protected_buffer_remove`: `sem_trywait(s_full)` — on failure
return NULL with the state untouched; on success `sem_trywait(s_m)` with the
return code ignored (the decrement happens only when `s_m > 0`, the body runs
either way), `circular_buffer_get`, `sem_post(s_m)`, `sem_post(s_empty)`. -/
def sem_protected_buffer_remove (b : SemBuf) : SemBuf × Option Nat :=
  if b.s_full = 0 then (b, none) else
  let b := { b with s_full := b.s_full - 1 }
  let b := if b.s_m = 0 then b else { b with s_m := b.s_m - 1 }
  let r := circular_buffer_get b.buffer
  let b := { b with buffer := r.1 }
  let b := { b with s_m := b.s_m + 1 }
  let b := { b with s_empty := b.s_empty + 1 }
  (b, r.2)

/-- Embeds `sem_protected_buffer_add`: `sem_trywait(s_empty)` — on failure
return 0 with the state untouched; on success `sem_trywait(s_m)` (return code
ignored), `circular_buffer_put`, then the source posts `sem_post(&b->s_m)`
twice in a row (it never posts `s_full`), and returns 1. -/
def sem_protected_buffer_add (b : SemBuf) (d : Nat) : SemBuf × Nat :=
  if b.s_empty = 0 then (b, 0) else
  let b := { b with s_empty := b.s_empty - 1 }
  let b := if b.s_m = 0 then b else { b with s_m := b.s_m - 1 }
  let b := { b with buffer := (circular_buffer_put b.buffer d).1 }
  let b := { b with s_m := b.s_m + 1 }
  let b := { b with s_m := b.s_m + 1 }
  (b, 1)

/-- Embeds `sem_protected_buffer_poll` with an already-past deadline:
`sem_timedwait(s_full, past)` degenerates to a try-decrement — on failure
return NULL with the state untouched; on success `sem_wait(s_m)` (blocking,
`none` when 0), `circular_buffer_get`, `sem_post(s_m)`, `sem_post(s_empty)`. -/
def sem_protected_buffer_poll_past (b : SemBuf) : Option (SemBuf × Option Nat) :=
  if b.s_full = 0 then some (b, none) else
  let b := { b with s_full := b.s_full - 1 }
  if b.s_m = 0 then none else
  let b := { b with s_m := b.s_m - 1 }
  let r := circular_buffer_get b.buffer
  let b := { b with buffer := r.1 }
  let b := { b with s_m := b.s_m + 1 }
  let b := { b with s_empty := b.s_empty + 1 }
  some (b, r.2)

/-- Embeds `sem_protected_buffer_offer` with an already-past deadline:
`sem_timedwait(s_empty, past)` degenerates to a try-decrement — on failure
return 0 with the state untouched; on success `sem_wait(s_m)` (blocking),
`circular_buffer_put`, `sem_post(s_m)`, `sem_post(s_full)`, return 1. -/
def sem_protected_buffer_offer_past (b : SemBuf) (d : Nat) :
    Option (SemBuf × Nat) :=
  if b.s_empty = 0 then some (b, 0) else
  let b := { b with s_empty := b.s_empty - 1 }
  if b.s_m = 0 then none else
  let b := { b with s_m := b.s_m - 1 }
  let b := { b with buffer := (circular_buffer_put b.buffer d).1 }
  let b := { b with s_m := b.s_m + 1 }
  let b := { b with s_full := b.s_full + 1 }
  some (b, 1)

/-- State of a `thread_pool_t` (src/TP5/thread_pool.c).  The C fields are
ints, so `size` is an integer (`pool_thread_remove` can in fact drive it
negative).  The source's `thread_pool_init` never writes the `shutdown`
field; the model takes the conventional zero (false) initial value. -/
structure ThreadPool where
  core_pool_size : Int
  max_pool_size : Int
  size : Int
  shutdown : Bool
deriving Repr, DecidableEq

/-- Embeds `thread_pool_init`: stores the two bounds and starts with
`size = 0`. -/
def thread_pool_init (core_pool_size max_pool_size : Int) : ThreadPool :=
  { core_pool_size := core_pool_size, max_pool_size := max_pool_size,
    size := 0, shutdown := false }

/-- Embeds `pool_thread_create`: under the pool lock, spawn and increment
`size` when `size < core_pool_size`; otherwise spawn and increment only when
`force` holds and `size < max_pool_size`; otherwise report failure (0). -/
def pool_thread_create (p : ThreadPool) (force : Bool) : ThreadPool × Nat :=
  if p.size < p.core_pool_size then ({ p with size := p.size + 1 }, 1)
  else if force = true ∧ p.size < p.max_pool_size then
    ({ p with size := p.size + 1 }, 1)
  else (p, 0)

/-- Embeds `thread_pool_shutdown`: sets the shutdown flag, nothing else. -/
def thread_pool_shutdown (p : ThreadPool) : ThreadPool :=
  { p with shutdown := true }

/-- Embeds `get_shutdown`: unsynchronized read of the flag. -/
def get_shutdown (p : ThreadPool) : Bool :=
  p.shutdown

/-- Embeds `pool_thread_remove`: `done` is the literal 1 and is never
reassigned; under the lock, decrement `size` when `size > core_pool_size`,
decrement it again when `shutdown` is set, and broadcast the "pool emptied"
condition when the resulting size is 0.  Returns the final state, the
returned `done` flag, and whether the broadcast fired. -/
def pool_thread_remove (p : ThreadPool) : ThreadPool × Nat × Bool :=
  let done : Nat := 1
  let p := if p.core_pool_size < p.size then { p with size := p.size - 1 } else p
  let p := if p.shutdown then { p with size := p.size - 1 } else p
  (p, done, p.size == 0)

/-- Embeds `wait_thread_pool_empty`: blocks until `size = 0`; in a quiescent
context it returns only when the size is already 0 (`none` = blocks
forever). -/
def wait_thread_pool_empty (p : ThreadPool) : Option ThreadPool :=
  if p.size = 0 then some p else none

/-- One externally driven thread-pool transition: a (forced or unforced)
worker creation attempt, or a worker retirement attempt. -/
inductive PoolOp where
  | create (force : Bool)
  | retire
deriving Repr, DecidableEq

/-- Applies one pool operation to the pool state. -/
def poolStep (p : ThreadPool) : PoolOp → ThreadPool
  | PoolOp.create f => (pool_thread_create p f).1
  | PoolOp.retire => (pool_thread_remove p).1

/-- Runs a sequence of pool operations from a given state. -/
def poolRun (p : ThreadPool) (ops : List PoolOp) : ThreadPool :=
  ops.foldl poolStep p

/-- State of an `executor_t` (src/TP5/executor.c): its thread pool and its
pending-futures protected buffer.  Modelled from the spec: the
`protected_buffer` dispatch layer is not under src; `executor_init` passes
`sem_impl = 0`, which the spec and the source comment resolve to the
condition-variable implementation, so the futures buffer is a monitor-strategy
buffer and its elements are future handles (opaque non-null `Nat`s). -/
structure ExecutorState where
  pool : ThreadPool
  futures : CircularBuffer
deriving Repr, DecidableEq

/-- Embeds `submit_callable`.  Returns the final executor state, the future
handle handed back to the caller, and (when the code reaches the forced
creation) the future handed to `pool_thread_create (force = 1)`.
Source order: try an unforced `pool_thread_create` and return the new future
on success; else try `protected_buffer_add` of the new future and return it
on success; else `protected_buffer_remove` the oldest pending future and, if
one was present, `protected_buffer_add` the new future in its place and make
the evicted future current; finally attempt a forced `pool_thread_create`
with the current future and return it. -/
def submit_callable (ex : ExecutorState) (future : Nat) :
    ExecutorState × Nat × Option Nat :=
  let c1 := pool_thread_create ex.pool false
  if c1.2 = 1 then ({ ex with pool := c1.1 }, future, none)
  else
    let a1 := cond_protected_buffer_add ex.futures future
    if a1.2.1 = 1 then ({ pool := c1.1, futures := a1.1 }, future, none)
    else
      let r1 := cond_protected_buffer_remove a1.1
      let next : CircularBuffer × Nat :=
        match r1.2.1 with
        | some first => ((cond_protected_buffer_add r1.1 future).1, first)
        | none => (r1.1, future)
      let c2 := pool_thread_create c1.1 true
      ({ pool := c2.1, futures := next.1 }, next.2, some next.2)

/-- Embeds `executor_shutdown`: `thread_pool_shutdown` (sets the flag), then
`wait_thread_pool_empty` (blocks until the size is 0).  Nothing is inserted
into the pending-futures buffer.  The second component is `some ()` when the
call returns, `none` when it blocks forever in a quiescent context. -/
def executor_shutdown (ex : ExecutorState) : ExecutorState × Option Unit :=
  let pool1 := thread_pool_shutdown ex.pool
  ({ ex with pool := pool1 }, (wait_thread_pool_empty pool1).map fun _ => ())

/-- State of a `future_t` as seen by the worker loop and `get_callable_result`:
the `completed` flag (a C int), the stored result, and the number of
broadcasts performed on the future's condition variable. -/
structure FutureState where
  completed : Nat
  result : Nat
  bcastCount : Nat
deriving Repr, DecidableEq

/-- Embeds `get_callable_result`: under the future's lock, wait while
`completed == 0` (in a quiescent context with no thread left to signal, the
wait never ends: `none`), then return the result. -/
def get_callable_result (f : FutureState) : Option Nat :=
  if f.completed = 0 then none else some f.result

/-- Embeds the inner loop of `main_pool_thread` for one future: each
iteration stores the callable's output `v` into `future->result`; when
`period == 0` it broadcasts the future's condition variable, sets
`completed = 1` and leaves the loop; when the task is periodic it sleeps
until the next release and re-fires unless `get_shutdown` reports true —
`n` is the number of periodic iterations after which the shutdown flag is
observed, and the loop then breaks with no broadcast and no completion. -/
def main_pool_thread_inner (period v : Nat) : Nat → FutureState → FutureState
  | 0, f =>
    let f := { f with result := v }
    if period = 0 then { f with bcastCount := f.bcastCount + 1, completed := 1 }
    else f
  | Nat.succ m, f =>
    let f := { f with result := v }
    if period = 0 then { f with bcastCount := f.bcastCount + 1, completed := 1 }
    else main_pool_thread_inner period v m f

end SE205

namespace SE205

/-- C1: refuted by the code — `cond_protected_buffer_put` inserts the value
twice.  On an empty capacity-2 buffer, `put 42` leaves the ring holding
`[42, 42]`: the `while (circular_buffer_put(..) == 0)` loop condition already
inserted `42`, and the stray `circular_buffer_put` after the loop inserts it
again, so the multiset of removable elements gains two copies of one
insertion. -/
theorem cond_put_inserts_twice :
    cond_protected_buffer_put { cap := 2, data := [] } 42 =
      some ({ cap := 2, data := [42, 42] }, [CondEvent.bcast CondVar.full]) := by
  decide

/-- C2: refuted by the code — on a fresh capacity-1 semaphore buffer,
`sem_protected_buffer_add 42` succeeds (returns 1) yet leaves the full-slot
semaphore at 0 (the complementary counting semaphore is never incremented:
the source posts `s_m` twice instead of `s_full`), drives the exclusion
semaphore to 2 (its value exceeds 1), and the inserted value is unobservable:
both a subsequent blocking `get` (blocks, `none`) and a subsequent
non-blocking `remove` (returns the NULL sentinel) fail to deliver it. -/
theorem sem_add_breaks_semaphore_accounting :
    (sem_protected_buffer_add (sem_protected_buffer_init 1) 42).2 = 1 ∧
    (sem_protected_buffer_add (sem_protected_buffer_init 1) 42).1.s_full = 0 ∧
    (sem_protected_buffer_add (sem_protected_buffer_init 1) 42).1.s_m = 2 ∧
    sem_protected_buffer_get
      (sem_protected_buffer_add (sem_protected_buffer_init 1) 42).1 = none ∧
    (sem_protected_buffer_remove
      (sem_protected_buffer_add (sem_protected_buffer_init 1) 42).1).2 = none := by
  decide

/-- C3: refuted by the code in the semaphore strategy — after a successful
`add 42` on a fresh capacity-1 semaphore buffer the ring holds `[42]`
(non-empty), yet the non-blocking `remove` returns the empty sentinel with
the state untouched, because `add` never posted the full-slot semaphore.
So `remove` does not fail exactly when the buffer is empty. -/
theorem sem_remove_fails_on_nonempty :
    (sem_protected_buffer_add (sem_protected_buffer_init 1) 42).1.buffer.data
        = [42] ∧
    sem_protected_buffer_remove
        (sem_protected_buffer_add (sem_protected_buffer_init 1) 42).1 =
      ((sem_protected_buffer_add (sem_protected_buffer_init 1) 42).1, none) := by
  decide

/-- C7: refuted by the code — in the monitor strategy, `poll` on an empty
buffer performs its timed wait on the `b->empty` condition variable, not on
the "slot became full" condition the claim names, and a successful `offer`
broadcasts the `b->empty` condition, not "slot became full". -/
theorem cond_poll_offer_use_wrong_condvars :
    (cond_protected_buffer_poll_past { cap := 1, data := [] }).2.2 =
        [CondEvent.timedwait CondVar.empty] ∧
    (cond_protected_buffer_offer_past { cap := 1, data := [] } 5).2.1 = 1 ∧
    (cond_protected_buffer_offer_past { cap := 1, data := [] } 5).2.2 =
        [CondEvent.bcast CondVar.empty] := by
  decide

/-- C8 counterexample: on a fresh capacity-1 semaphore buffer, `offer 42`
with a past deadline and the non-blocking `add 42` leave different final
synchronization states (offer: `s_m = 1`, `s_full = 1`; add: `s_m = 2`,
`s_full = 0`), so offer with a past deadline does not produce the same final
state as add in the semaphore strategy. -/
theorem sem_offer_past_state_ne_add_state :
    (sem_protected_buffer_offer_past (sem_protected_buffer_init 1) 42).map
        Prod.fst ≠
      some (sem_protected_buffer_add (sem_protected_buffer_init 1) 42).1 := by
  decide

/-- C8 amended: with an already-past deadline, `poll` returns the same result
and final state as the non-blocking `remove` in both strategies (for the
semaphore strategy whenever the exclusion semaphore is free, as in any
quiescent state), and `offer` matches the non-blocking `add` in result and
final state in the monitor strategy; in the semaphore strategy `offer` and
`add` still agree on the returned flag, the ring contents and the empty-slot
semaphore, but not on the full final state (see the counterexample). -/
theorem poll_offer_past_refine_remove_add (cb : CircularBuffer) (d : Nat)
    (s : SemBuf) (hs : 0 < s.s_m) :
    ((cond_protected_buffer_poll_past cb).1 =
        (cond_protected_buffer_remove cb).1 ∧
      (cond_protected_buffer_poll_past cb).2.1 =
        (cond_protected_buffer_remove cb).2.1) ∧
    ((cond_protected_buffer_offer_past cb d).1 =
        (cond_protected_buffer_add cb d).1 ∧
      (cond_protected_buffer_offer_past cb d).2.1 =
        (cond_protected_buffer_add cb d).2.1) ∧
    sem_protected_buffer_poll_past s = some (sem_protected_buffer_remove s) ∧
    (sem_protected_buffer_offer_past s d).map
        (fun p => (p.1.buffer, p.1.s_empty, p.2)) =
      some ((sem_protected_buffer_add s d).1.buffer,
        (sem_protected_buffer_add s d).1.s_empty,
        (sem_protected_buffer_add s d).2) := by
  have hm : s.s_m ≠ 0 := Nat.pos_iff_ne_zero.mp hs
  refine ⟨?_, ?_, ?_, ?_⟩
  · cases hd : cb.data <;>
      simp [cond_protected_buffer_poll_past, cond_protected_buffer_remove,
        circular_buffer_get, hd]
  · simp only [cond_protected_buffer_offer_past, cond_protected_buffer_add,
      circular_buffer_put]
    split <;> simp
  · by_cases hf : s.s_full = 0 <;>
      simp [sem_protected_buffer_poll_past, sem_protected_buffer_remove, hf, hm]
  · by_cases he : s.s_empty = 0 <;>
      simp [sem_protected_buffer_offer_past, sem_protected_buffer_add, he, hm]

/-- C8 witness: the amended refinement theorem instantiated on a singleton
monitor buffer, value 42 and a fresh capacity-1 semaphore buffer, whose
exclusion semaphore is free. -/
theorem poll_offer_past_refine_remove_add_witness :
    0 < (sem_protected_buffer_init 1).s_m ∧
    ((((cond_protected_buffer_poll_past { cap := 1, data := [7] }).1 =
        (cond_protected_buffer_remove { cap := 1, data := [7] }).1 ∧
      (cond_protected_buffer_poll_past { cap := 1, data := [7] }).2.1 =
        (cond_protected_buffer_remove { cap := 1, data := [7] }).2.1) ∧
    ((cond_protected_buffer_offer_past { cap := 1, data := [7] } 42).1 =
        (cond_protected_buffer_add { cap := 1, data := [7] } 42).1 ∧
      (cond_protected_buffer_offer_past { cap := 1, data := [7] } 42).2.1 =
        (cond_protected_buffer_add { cap := 1, data := [7] } 42).2.1) ∧
    sem_protected_buffer_poll_past (sem_protected_buffer_init 1) =
      some (sem_protected_buffer_remove (sem_protected_buffer_init 1)) ∧
    (sem_protected_buffer_offer_past (sem_protected_buffer_init 1) 42).map
        (fun p => (p.1.buffer, p.1.s_empty, p.2)) =
      some ((sem_protected_buffer_add (sem_protected_buffer_init 1) 42).1.buffer,
        (sem_protected_buffer_add (sem_protected_buffer_init 1) 42).1.s_empty,
        (sem_protected_buffer_add (sem_protected_buffer_init 1) 42).2))) :=
  ⟨by decide,
    poll_offer_past_refine_remove_add { cap := 1, data := [7] } 42
      (sem_protected_buffer_init 1) (by decide)⟩

/-- Helper: any property preserved by every step along a run holds at its
end. -/
theorem poolRun_preserves (P : ThreadPool → Prop) (ops : List PoolOp)
    (p : ThreadPool) (hp : P p)
    (hstep : ∀ q op, op ∈ ops → P q → P (poolStep q op)) :
    P (poolRun p ops) := by
  induction ops generalizing p with
  | nil => exact hp
  | cons o rest ih =>
      exact ih _ (hstep p o (by simp) hp)
        (fun q op hop h => hstep q op (by simp [hop]) h)

/-- Helper: a pool step never changes the two configured bounds. -/
theorem poolStep_fields (p : ThreadPool) (op : PoolOp) :
    (poolStep p op).core_pool_size = p.core_pool_size ∧
    (poolStep p op).max_pool_size = p.max_pool_size := by
  cases op with
  | create f =>
      simp only [poolStep, pool_thread_create]
      split
      · simp
      · split <;> simp
  | retire =>
      simp only [poolStep, pool_thread_remove]
      split <;> split <;> simp

/-- Helper: steps keep the size at most `max_pool_size` when the core bound
does not exceed the max bound. -/
theorem poolStep_size_le_max (p : ThreadPool) (op : PoolOp)
    (hcm : p.core_pool_size ≤ p.max_pool_size)
    (h : p.size ≤ p.max_pool_size) :
    (poolStep p op).size ≤ p.max_pool_size := by
  cases op with
  | create f =>
      simp only [poolStep, pool_thread_create]
      split
      · simp only
        omega
      · split
        · simp only
          omega
        · exact h
  | retire =>
      simp only [poolStep, pool_thread_remove]
      split <;> split <;> (try simp) <;> omega

/-- Helper: without forced creations, steps keep the size at most
`core_pool_size`. -/
theorem poolStep_size_le_core (p : ThreadPool) (op : PoolOp)
    (hop : op ≠ PoolOp.create true) (h : p.size ≤ p.core_pool_size) :
    (poolStep p op).size ≤ p.core_pool_size := by
  cases op with
  | create f =>
      cases f with
      | false =>
          simp only [poolStep, pool_thread_create]
          split
          · simp only
            omega
          · simp only [Bool.false_eq_true, false_and, if_false]
            exact h
      | true => exact absurd rfl hop
  | retire =>
      simp only [poolStep, pool_thread_remove]
      split <;> split <;> (try simp) <;> omega

/-- Helper: an unforced creation succeeds exactly when the size is below the
core bound. -/
theorem pool_thread_create_unforced_iff (p : ThreadPool) :
    (pool_thread_create p false).2 = 1 ↔ p.size < p.core_pool_size := by
  by_cases h : p.size < p.core_pool_size <;>
    simp [pool_thread_create, h]

/-- Helper: a forced creation succeeds exactly when the size is below the max
bound, provided the core bound does not exceed the max bound. -/
theorem pool_thread_create_forced_iff (p : ThreadPool)
    (hcm : p.core_pool_size ≤ p.max_pool_size) :
    (pool_thread_create p true).2 = 1 ↔ p.size < p.max_pool_size := by
  by_cases h : p.size < p.core_pool_size
  · simp only [pool_thread_create, h, if_true]
    constructor
    · intro _
      omega
    · intro _
      trivial
  · simp only [pool_thread_create, h, if_false, true_and]
    by_cases h2 : p.size < p.max_pool_size <;> simp [h2]

/-- C5: over every sequence of create/retire operations started from
`thread_pool_init core mx` with `0 ≤ core ≤ mx`, the live-worker count stays
at most `mx`; at the reached state an unforced `pool_thread_create` succeeds
exactly when the count is below `core` and a forced one exactly when it is
below `mx`; and if the sequence contains no forced creation the count stays
at most `core`. -/
theorem thread_pool_size_policy (core mx : Int) (h0 : 0 ≤ core)
    (hcm : core ≤ mx) (ops : List PoolOp) :
    (poolRun (thread_pool_init core mx) ops).size ≤ mx ∧
    ((pool_thread_create (poolRun (thread_pool_init core mx) ops) false).2 = 1 ↔
      (poolRun (thread_pool_init core mx) ops).size < core) ∧
    ((pool_thread_create (poolRun (thread_pool_init core mx) ops) true).2 = 1 ↔
      (poolRun (thread_pool_init core mx) ops).size < mx) ∧
    (PoolOp.create true ∉ ops →
      (poolRun (thread_pool_init core mx) ops).size ≤ core) := by
  have hfields :
      (poolRun (thread_pool_init core mx) ops).core_pool_size = core ∧
      (poolRun (thread_pool_init core mx) ops).max_pool_size = mx := by
    refine poolRun_preserves
      (fun q => q.core_pool_size = core ∧ q.max_pool_size = mx) ops _
      ⟨rfl, rfl⟩ ?_
    intro q op _ hq
    obtain ⟨hc, hm⟩ := poolStep_fields q op
    exact ⟨hc.trans hq.1, hm.trans hq.2⟩
  have hsize : (poolRun (thread_pool_init core mx) ops).size ≤ mx := by
    have := poolRun_preserves
      (fun q => q.core_pool_size = core ∧ q.max_pool_size = mx ∧ q.size ≤ mx)
      ops (thread_pool_init core mx)
      ⟨rfl, rfl, by simp only [thread_pool_init]; omega⟩ ?_
    · exact this.2.2
    · intro q op _ hq
      obtain ⟨hcf, hmf⟩ := poolStep_fields q op
      refine ⟨hcf.trans hq.1, hmf.trans hq.2.1, ?_⟩
      have := poolStep_size_le_max q op (by rw [hq.1, hq.2.1]; exact hcm)
        (by rw [hq.2.1]; exact hq.2.2)
      rw [hq.2.1] at this
      exact this
  refine ⟨hsize, ?_, ?_, ?_⟩
  · rw [pool_thread_create_unforced_iff, hfields.1]
  · rw [pool_thread_create_forced_iff _ (by rw [hfields.1, hfields.2]; exact hcm),
      hfields.2]
  · intro hno
    have := poolRun_preserves
      (fun q => q.core_pool_size = core ∧ q.size ≤ core) ops
      (thread_pool_init core mx)
      ⟨rfl, by simp only [thread_pool_init]; omega⟩ ?_
    · exact this.2
    · intro q op hop hq
      refine ⟨(poolStep_fields q op).1.trans hq.1, ?_⟩
      have hopne : op ≠ PoolOp.create true := by
        intro he
        exact hno (he ▸ hop)
      have := poolStep_size_le_core q op hopne (by rw [hq.1]; exact hq.2)
      rw [hq.1] at this
      exact this

/-- C5 witness: the policy theorem at core 1, max 2 and the operation
sequence unforced create, forced create, retire. -/
theorem thread_pool_size_policy_witness :
    (0 : Int) ≤ 1 ∧ (1 : Int) ≤ 2 ∧
    ((poolRun (thread_pool_init 1 2)
        [PoolOp.create false, PoolOp.create true, PoolOp.retire]).size ≤ 2 ∧
    ((pool_thread_create (poolRun (thread_pool_init 1 2)
        [PoolOp.create false, PoolOp.create true, PoolOp.retire]) false).2 = 1 ↔
      (poolRun (thread_pool_init 1 2)
        [PoolOp.create false, PoolOp.create true, PoolOp.retire]).size < 1) ∧
    ((pool_thread_create (poolRun (thread_pool_init 1 2)
        [PoolOp.create false, PoolOp.create true, PoolOp.retire]) true).2 = 1 ↔
      (poolRun (thread_pool_init 1 2)
        [PoolOp.create false, PoolOp.create true, PoolOp.retire]).size < 2) ∧
    (PoolOp.create true ∉
        [PoolOp.create false, PoolOp.create true, PoolOp.retire] →
      (poolRun (thread_pool_init 1 2)
        [PoolOp.create false, PoolOp.create true, PoolOp.retire]).size ≤ 1)) :=
  ⟨by decide, by decide,
    thread_pool_size_policy 1 2 (by decide) (by decide)
      [PoolOp.create false, PoolOp.create true, PoolOp.retire]⟩

/-- C6: refuted by the code — `pool_thread_remove` initialises `done` to 1
and never clears it, so it reports "stop" unconditionally.  For a core worker
(size 1, core 2) with no shutdown requested, the call changes nothing and
still returns 1, although the claim requires false there. -/
theorem pool_thread_remove_always_grants_stop :
    pool_thread_remove
        { core_pool_size := 2, max_pool_size := 4, size := 1, shutdown := false } =
      ({ core_pool_size := 2, max_pool_size := 4, size := 1, shutdown := false }, 1, false) := by
  decide

/-- Helper: a ring insert on a full store fails and leaves it unchanged. -/
theorem circular_buffer_put_fail (b : CircularBuffer) (d : Nat)
    (h : ¬ b.data.length < b.cap) :
    circular_buffer_put b d = (b, 0) := by
  simp [circular_buffer_put, h]

/-- C4: `submit_callable` always hands the caller a future taken from the
valid ones (the newly created future or a previously queued one — never an
error), and in the overload case (no unforced worker available, pending queue
full and non-empty) it removes the oldest pending future, adds the new future
in its place at the queue's tail, attempts the forced worker creation for the
evicted future, and returns the evicted future's handle. -/
theorem submit_callable_overload_evicts_oldest (ex : ExecutorState) (f : Nat)
    (hNoWorker : ¬ ex.pool.size < ex.pool.core_pool_size)
    (hFull : ex.futures.data.length = ex.futures.cap)
    (hNE : ex.futures.data ≠ []) :
    (∀ (ex2 : ExecutorState) (g : Nat),
        (submit_callable ex2 g).2.1 = g ∨
          (submit_callable ex2 g).2.1 ∈ ex2.futures.data) ∧
    ∃ d rest, ex.futures.data = d :: rest ∧
      (submit_callable ex f).2.1 = d ∧
      (submit_callable ex f).2.2 = some d ∧
      (submit_callable ex f).1.futures =
        { cap := ex.futures.cap, data := rest ++ [f] } := by
  constructor
  · intro ex2 g
    by_cases hw : (pool_thread_create ex2.pool false).2 = 1
    · simp [submit_callable, hw]
    · by_cases hlen : ex2.futures.data.length < ex2.futures.cap
      · simp [submit_callable, hw, cond_protected_buffer_add,
          circular_buffer_put, hlen]
      · cases hd : ex2.futures.data with
        | nil =>
            have hcap : ex2.futures.cap = 0 := by
              rw [hd] at hlen
              simpa using hlen
            simp [submit_callable, hw, cond_protected_buffer_add,
              cond_protected_buffer_remove, circular_buffer_put,
              circular_buffer_get, hd, hcap]
        | cons a rest =>
            rw [hd] at hlen
            simp only [List.length_cons] at hlen
            simp [submit_callable, hw, cond_protected_buffer_add,
              cond_protected_buffer_remove, circular_buffer_put,
              circular_buffer_get, hd, hlen]
  · obtain ⟨d, rest, hd⟩ : ∃ d rest, ex.futures.data = d :: rest := by
      cases hx : ex.futures.data with
      | nil => exact absurd hx hNE
      | cons a t => exact ⟨a, t, rfl⟩
    have hw : ¬ (pool_thread_create ex.pool false).2 = 1 := by
      simp [pool_thread_create, hNoWorker]
    rw [hd] at hFull
    have hlen : ¬ ((d :: rest : List Nat).length < ex.futures.cap) := by
      simp only [List.length_cons] at hFull ⊢
      omega
    have hlen2 : rest.length < ex.futures.cap := by
      simp only [List.length_cons] at hFull
      omega
    simp only [List.length_cons] at hlen
    refine ⟨d, rest, hd, ?_⟩
    simp [submit_callable, hw, cond_protected_buffer_add,
      cond_protected_buffer_remove, circular_buffer_put, circular_buffer_get,
      hd, hlen, hlen2]

/-- C4 witness: the overload theorem on an executor whose pool (core 0) can
take no unforced worker and whose capacity-1 pending queue already holds
future 7, submitting future 9. -/
theorem submit_callable_overload_evicts_oldest_witness :
    (¬ ({ pool := { core_pool_size := 0, max_pool_size := 1, size := 0, shutdown := false }, futures := { cap := 1, data := [7] } } : ExecutorState).pool.size <
        ({ pool := { core_pool_size := 0, max_pool_size := 1, size := 0, shutdown := false }, futures := { cap := 1, data := [7] } } : ExecutorState).pool.core_pool_size) ∧
    ([7] : List Nat).length = 1 ∧ ([7] : List Nat) ≠ [] ∧
    ((∀ (ex2 : ExecutorState) (g : Nat),
        (submit_callable ex2 g).2.1 = g ∨
          (submit_callable ex2 g).2.1 ∈ ex2.futures.data) ∧
    ∃ d rest, ([7] : List Nat) = d :: rest ∧
      (submit_callable
        { pool := { core_pool_size := 0, max_pool_size := 1, size := 0, shutdown := false }, futures := { cap := 1, data := [7] } } 9).2.1 = d ∧
      (submit_callable
        { pool := { core_pool_size := 0, max_pool_size := 1, size := 0, shutdown := false }, futures := { cap := 1, data := [7] } } 9).2.2 = some d ∧
      (submit_callable
        { pool := { core_pool_size := 0, max_pool_size := 1, size := 0, shutdown := false }, futures := { cap := 1, data := [7] } } 9).1.futures =
        { cap := 1, data := rest ++ [9] }) :=
  ⟨by decide, by decide, by decide,
    submit_callable_overload_evicts_oldest
      { pool := { core_pool_size := 0, max_pool_size := 1, size := 0, shutdown := false }, futures := { cap := 1, data := [7] } } 9
      (by decide) (by decide) (by decide)⟩

/-- C9: refuted by the code — with keep-alive FOREVER, a worker idles blocked
in `protected_buffer_get` on the empty pending-futures buffer (pool size 1).
`executor_shutdown` only sets the shutdown flag and waits for the pool to
empty: it enqueues no sentinel future (the buffer is left empty, so the
blocked `get` still blocks), and since the size never reaches 0 the
`wait_thread_pool_empty` call never returns. -/
theorem executor_shutdown_never_unblocks :
    (executor_shutdown
        { pool := { core_pool_size := 1, max_pool_size := 2, size := 1, shutdown := false }, futures := { cap := 2, data := [] } }).1.futures =
      { cap := 2, data := [] } ∧
    cond_protected_buffer_get
      (executor_shutdown
        { pool := { core_pool_size := 1, max_pool_size := 2, size := 1, shutdown := false }, futures := { cap := 2, data := [] } }).1.futures = none ∧
    (executor_shutdown
        { pool := { core_pool_size := 1, max_pool_size := 2, size := 1, shutdown := false }, futures := { cap := 2, data := [] } }).2 = none := by
  decide

/-- C10: for every task with positive period, however many periodic firings
happen before the shutdown flag is observed, the worker's inner loop leaves
the future's `completed` flag at 0 and performs no broadcast on its condition
variable, so `get_callable_result` on that future blocks forever (`none`). -/
theorem periodic_future_never_completes (period v n : Nat) (f : FutureState)
    (hp : 0 < period) (hc : f.completed = 0) (hb : f.bcastCount = 0) :
    (main_pool_thread_inner period v n f).completed = 0 ∧
    (main_pool_thread_inner period v n f).bcastCount = 0 ∧
    get_callable_result (main_pool_thread_inner period v n f) = none := by
  have hp2 : ¬ period = 0 := Nat.pos_iff_ne_zero.mp hp
  induction n generalizing f with
  | zero =>
      simp [main_pool_thread_inner, hp2, get_callable_result, hc, hb]
  | succ m ih =>
      simpa [main_pool_thread_inner, hp2] using ih { f with result := v } hc hb

/-- C10 witness: the theorem on a period-1 task observed shutting down after
3 firings, starting from a fresh future. -/
theorem periodic_future_never_completes_witness :
    0 < 1 ∧
    ({ completed := 0, result := 0, bcastCount := 0 } : FutureState).completed
      = 0 ∧
    ({ completed := 0, result := 0, bcastCount := 0 } : FutureState).bcastCount
      = 0 ∧
    ((main_pool_thread_inner 1 5 3
        { completed := 0, result := 0, bcastCount := 0 }).completed = 0 ∧
     (main_pool_thread_inner 1 5 3
        { completed := 0, result := 0, bcastCount := 0 }).bcastCount = 0 ∧
     get_callable_result (main_pool_thread_inner 1 5 3
        { completed := 0, result := 0, bcastCount := 0 }) = none) :=
  ⟨by decide, by decide, by decide,
    periodic_future_never_completes 1 5 3
      { completed := 0, result := 0, bcastCount := 0 }
      (by decide) (by decide) (by decide)⟩

end SE205
